import Mathlib

/-!
Verification of the BlackRoad Energy Monitor core (`src/energy_monitor.py`)
against its natural-language specification.

The embedding below translates the persistent state (the `devices`,
`readings` and `alerts` SQLite tables) into explicit Lean lists, and the
operations `add_device`, `add_reading`, `get_daily_usage`, `get_anomalies`
and `export_report` into pure state-passing functions.  Watt values, which
are Python floats in the source, are modelled as exact rationals; the SQL
queries are modelled by the list operations they denote (filter, sort by
timestamp descending, take, group-by).  `datetime.utcnow()` is modelled by
an explicit `now : Timestamp` argument.
-/

namespace EnergyMonitor

/-- Model of an ISO-8601 timestamp string: `date` is the `YYYY-MM-DD` part,
`tod` the time of day.  Lexicographic comparison of ISO strings corresponds
to lexicographic comparison of the `(date, tod)` pair, and the SQL filter
`timestamp LIKE 'YYYY-MM-DD%'` corresponds to equality on the `date` part. -/
structure Timestamp where
  date : Nat
  tod : Nat
deriving DecidableEq

/-- Strict comparison of timestamps (lexicographic, matching ISO-8601 string
order as used by `ORDER BY timestamp DESC`). -/
def Timestamp.lt (a b : Timestamp) : Bool :=
  a.date < b.date || (a.date == b.date && a.tod < b.tod)

/-- A row of the `readings` table. -/
structure ReadingRow where
  id : Nat
  device_id : String
  device_name : String
  watts : ℚ
  location : String
  timestamp : Timestamp
deriving DecidableEq

/-- A row of the `alerts` table.  The human-readable `message` column (a
formatted presentation string) is not modelled. -/
structure AlertRow where
  id : Nat
  device_id : String
  device_name : String
  alert_type : String
  watts : ℚ
  baseline_watts : ℚ
  deviation_pct : ℚ
  created_at : Timestamp
deriving DecidableEq

/-- A row of the `devices` table. -/
structure DeviceRow where
  device_id : String
  device_name : String
  location : String
  threshold_watts : ℚ
  created_at : Timestamp
deriving DecidableEq

/-- The `EnergyReading` dataclass of the source. -/
structure EnergyReading where
  device_id : String
  device_name : String
  watts : ℚ
  timestamp : Option Timestamp := none
  location : String := "default"
  id : Option Nat := none
deriving DecidableEq

/-- The `DeviceStats` dataclass of the source. -/
structure DeviceStats where
  device_id : String
  device_name : String
  location : String
  avg_watts : ℚ
  max_watts : ℚ
  min_watts : ℚ
  daily_kwh : ℚ
  daily_cost_usd : ℚ
  reading_count : Nat
  last_reading_at : Option Timestamp
deriving DecidableEq

/-- The database state: the three tables created by `init_db`. -/
structure State where
  devices : List DeviceRow
  readings : List ReadingRow
  alerts : List AlertRow
deriving DecidableEq

/-- A fresh database, as produced by `init_db` on a new path. -/
def initState : State := ⟨[], [], []⟩

/-- The module constant `COST_PER_KWH = 0.12`. -/
def COST_PER_KWH : ℚ := 12/100

/-- Python `round(x, n)` (round half to even at `n` decimal places),
restated on exact rationals. -/
def pyRound (n : Nat) (x : ℚ) : ℚ :=
  let y := x * 10 ^ n
  let f := ⌊y⌋
  let r := y - f
  ((if r < 1/2 then f else if 1/2 < r then f + 1 else if f % 2 = 0 then f else f + 1 : ℤ) : ℚ)
    / 10 ^ n

/-- Python `statistics.mean` on a list of values (only ever applied to
nonempty lists in the source). -/
def mean (l : List ℚ) : ℚ := l.sum / l.length

/-- The square of Python `statistics.stdev` (sample variance, `N - 1`
denominator).  The source only evaluates it on lists of length greater
than one; working with the variance rather than the standard deviation
keeps the value rational, and the source's comparisons against `std` are
translated to the equivalent squared comparisons below. -/
def sampleVar (l : List ℚ) : ℚ :=
  (l.map (fun x => (x - mean l) ^ 2)).sum / ((l.length : ℚ) - 1)

/-- Insert into a list sorted in descending order, `later a b = true`
meaning `a` sorts strictly before `b`. -/
def insertByDesc (later : α → α → Bool) (a : α) : List α → List α
  | [] => [a]
  | x :: xs => if later a x then a :: x :: xs else x :: insertByDesc later a xs

/-- Insertion sort into descending order; a deterministic refinement of the
SQL `ORDER BY ... DESC` (which leaves the order of ties unspecified). -/
def sortByDesc (later : α → α → Bool) : List α → List α
  | [] => []
  | x :: xs => insertByDesc later x (sortByDesc later xs)

/-- Whether reading row `a` has a strictly later timestamp than `b`. -/
def tsLater (a b : ReadingRow) : Bool := Timestamp.lt b.timestamp a.timestamp

/-- The history query of `add_reading`:
`SELECT watts FROM readings WHERE device_id = ? ORDER BY timestamp DESC LIMIT 100`. -/
def recentWatts (rows : List ReadingRow) (dev : String) : List ℚ :=
  ((sortByDesc tsLater (rows.filter (fun r => r.device_id == dev))).take 100).map
    (fun r => r.watts)

/-- The row inserted into `readings` by `add_reading`: the reading, stamped
with `timestamp or utcnow()` and the next autoincrement row id. -/
def newRow (s : State) (reading : EnergyReading) (now : Timestamp) : ReadingRow :=
  ⟨s.readings.length + 1, reading.device_id, reading.device_name, reading.watts,
    reading.location, reading.timestamp.getD now⟩

/-- The history list the anomaly check of `add_reading` actually uses: the
query runs after the new reading was inserted, on the same connection, so
the window is taken over the table including the new row. -/
def postHistory (s : State) (reading : EnergyReading) (now : Timestamp) : List ℚ :=
  recentWatts (s.readings ++ [newRow s reading now]) reading.device_id

/-- The anomaly test of `add_reading`: history length at least 10, and
`std > 0 and abs(watts - baseline) > 2 * std` with
`std = statistics.stdev(history) if len(history) > 1 else 0`; the two
comparisons against `std` are stated on the sample variance (`std ^ 2`),
which is equivalent since both sides are nonnegative. -/
def anomalyCheck (hist : List ℚ) (w : ℚ) : Bool :=
  if 10 ≤ hist.length then
    let spread2 := if 1 < hist.length then sampleVar hist else 0
    decide (0 < spread2) && decide (4 * spread2 < (w - mean hist) ^ 2)
  else false

/-- The deviation percentage of the source:
`((watts - baseline) / baseline) * 100 if baseline > 0 else 0`. -/
def deviationPct (w baseline : ℚ) : ℚ :=
  if 0 < baseline then ((w - baseline) / baseline) * 100 else 0

/-- The `alerts` row persisted by the anomaly branch of `add_reading`
(baseline and deviation stored rounded to 2 places). -/
def anomalyRow (s : State) (reading : EnergyReading) (now : Timestamp) : AlertRow :=
  ⟨s.alerts.length + 1, reading.device_id, reading.device_name, "anomaly", reading.watts,
    pyRound 2 (mean (postHistory s reading now)),
    pyRound 2 (deviationPct reading.watts (mean (postHistory s reading now))), now⟩

/-- The list of alert rows the anomaly branch of `add_reading` appends
(one row when the check fires, none otherwise). -/
def anomalyAlertsOf (s : State) (reading : EnergyReading) (now : Timestamp) : List AlertRow :=
  if anomalyCheck (postHistory s reading now) reading.watts then [anomalyRow s reading now]
  else []

/-- The result of `add_reading`: the returned (mutated) reading, the new
database state, and whether the threshold branch printed its transient
warning. -/
structure AddResult where
  returned : EnergyReading
  state : State
  thresholdWarned : Bool
deriving DecidableEq

/-- `EnergyMonitor.add_reading`: stamp the reading, insert it into
`readings`, run the anomaly check on the history (queried after the
insert), persist an alert row when it fires, then run the threshold check
(which only prints), and commit. -/
def addReading (s : State) (reading : EnergyReading) (now : Timestamp) : AddResult :=
  let row := newRow s reading now
  let warned :=
    match s.devices.find? (fun d => d.device_id == reading.device_id) with
    | some d => decide (0 < d.threshold_watts) && decide (d.threshold_watts < reading.watts)
    | none => false
  ⟨{ reading with timestamp := some row.timestamp, id := some row.id },
    { s with readings := s.readings ++ [row],
             alerts := s.alerts ++ anomalyAlertsOf s reading now },
    warned⟩

/-- `EnergyMonitor.add_device`: insert, or warn without change when the
device id already exists (the PRIMARY KEY violation path). -/
def addDevice (s : State) (device_id device_name location : String)
    (threshold_watts : ℚ) (now : Timestamp) : State :=
  if s.devices.any (fun d => d.device_id == device_id) then s
  else { s with devices := s.devices ++ [⟨device_id, device_name, location, threshold_watts, now⟩] }

/-- The `WHERE timestamp LIKE 'date%'` filter of `get_daily_usage`,
together with the optional `AND device_id = ?`. -/
def onDate (date : Nat) (filt : Option String) (r : ReadingRow) : Bool :=
  r.timestamp.date == date &&
    (match filt with
     | some d => r.device_id == d
     | none => true)

/-- The `GROUP BY device_id, device_name, location` key of a reading row. -/
def statsKey (r : ReadingRow) : String × String × String :=
  (r.device_id, r.device_name, r.location)

/-- The distinct group keys of a set of rows (one output row per key; the
group order of the SQL `GROUP BY` is unspecified, this recursion fixes
one). -/
def keysOf : List ReadingRow → List (String × String × String)
  | [] => []
  | r :: rest =>
      let ks := keysOf rest
      if statsKey r ∈ ks then ks else statsKey r :: ks

/-- `MAX(watts)` over a group. -/
def maxWatts : List ℚ → ℚ
  | [] => 0
  | x :: xs => xs.foldl max x

/-- `MIN(watts)` over a group. -/
def minWatts : List ℚ → ℚ
  | [] => 0
  | x :: xs => xs.foldl min x

/-- `MAX(timestamp)` over a group. -/
def maxTs : List Timestamp → Option Timestamp
  | [] => none
  | x :: xs => some (xs.foldl (fun a b => if Timestamp.lt a b then b else a) x)

/-- One `DeviceStats` row of `get_daily_usage`: aggregate the group, derive
`kwh = avg * 24 / 1000` and `cost = kwh * COST_PER_KWH` from the unrounded
average, and round each field for presentation. -/
def groupRow (rows : List ReadingRow) (k : String × String × String) : DeviceStats :=
  let g := rows.filter (fun r => statsKey r == k)
  let ws := g.map (fun r => r.watts)
  let avg := mean ws
  let kwh := avg * 24 / 1000
  let cost := kwh * COST_PER_KWH
  ⟨k.1, k.2.1, k.2.2, pyRound 2 avg, pyRound 2 (maxWatts ws), pyRound 2 (minWatts ws),
    pyRound 4 kwh, pyRound 4 cost, ws.length, maxTs (g.map (fun r => r.timestamp))⟩

/-- `EnergyMonitor.get_daily_usage`: filter the readings of the requested
day (and optional device), group, aggregate. -/
def getDailyUsage (s : State) (device_id : Option String) (date : Nat) : List DeviceStats :=
  let rows := s.readings.filter (onDate date device_id)
  (keysOf rows).map (groupRow rows)

/-- Whether alert row `a` was created strictly later than `b`. -/
def createdLater (a b : AlertRow) : Bool := Timestamp.lt b.created_at a.created_at

/-- `EnergyMonitor.get_anomalies`:
`SELECT * FROM alerts ORDER BY created_at DESC LIMIT ?`. -/
def getAnomalies (s : State) (limit : Nat) : List AlertRow :=
  (sortByDesc createdLater s.alerts).take limit

/-- The report produced by `EnergyMonitor.export_report` (the parts with
content: per-device stats, recent anomalies, and the summary totals). -/
structure Report where
  devices : List DeviceStats
  recent_anomalies : List AlertRow
  total_daily_kwh : ℚ
  total_daily_cost_usd : ℚ
  device_count : Nat
  anomaly_count : Nat
deriving DecidableEq

/-- `EnergyMonitor.export_report`: compose today's stats, the 20 most
recent alerts, and summary totals obtained by summing the per-device
`daily_kwh` / `daily_cost_usd` fields and rounding to 4 places. -/
def exportReport (s : State) (today : Nat) : Report :=
  let stats := getDailyUsage s none today
  let anomalies := getAnomalies s 20
  ⟨stats, anomalies,
    pyRound 4 ((stats.map (fun st => st.daily_kwh)).sum),
    pyRound 4 ((stats.map (fun st => st.daily_cost_usd)).sum),
    stats.length, anomalies.length⟩

/-- Modelled from the spec (section 4.1, side effect): the anomaly
classification the spec prescribes, computed from the history read
before the reading is committed, so excluding the reading itself. -/
def specClassifyBeforeCommit (s : State) (reading : EnergyReading) : Bool :=
  anomalyCheck (recentWatts s.readings reading.device_id) reading.watts

/-- Modelled from the spec (section 4.3): the summary total computed from
the unrounded per-device intermediate values, rounded only once at the
presentation boundary. -/
def specTotalDailyKwh (s : State) (today : Nat) : ℚ :=
  let rows := s.readings.filter (onDate today none)
  pyRound 4 (((keysOf rows).map
    (fun k => mean ((rows.filter (fun r => statsKey r == k)).map (fun r => r.watts)) * 24 / 1000)).sum)

/-- Record a sequence of readings through `add_reading`, threading the
state. -/
def runReadings (s : State) : List (EnergyReading × Timestamp) → State
  | [] => s
  | (r, t) :: rest => runReadings (addReading s r t).state rest

/-- The readings table obtained by stamping and appending a sequence of
readings onto an existing table (the `readings` component of
`runReadings`, which does not depend on the alert decisions). -/
def stampFrom (rows : List ReadingRow) : List (EnergyReading × Timestamp) → List ReadingRow
  | [] => rows
  | (r, t) :: rest =>
      stampFrom (rows ++ [⟨rows.length + 1, r.device_id, r.device_name, r.watts,
        r.location, r.timestamp.getD t⟩]) rest

theorem length_insertByDesc (later : α → α → Bool) (a : α) (l : List α) :
    (insertByDesc later a l).length = l.length + 1 := by
  induction l with
  | nil => rfl
  | cons x xs ih =>
      simp only [insertByDesc]
      split <;> simp [ih]

theorem length_sortByDesc (later : α → α → Bool) (l : List α) :
    (sortByDesc later l).length = l.length := by
  induction l with
  | nil => rfl
  | cons x xs ih => simp [sortByDesc, length_insertByDesc, ih]

theorem mem_insertByDesc (later : α → α → Bool) (a x : α) (l : List α) :
    x ∈ insertByDesc later a l ↔ x = a ∨ x ∈ l := by
  induction l with
  | nil => simp [insertByDesc]
  | cons y ys ih =>
      simp only [insertByDesc]
      split
      · simp [or_comm, or_assoc, or_left_comm]
      · simp [ih]
        tauto

theorem mem_sortByDesc (later : α → α → Bool) (x : α) (l : List α) :
    x ∈ sortByDesc later l ↔ x ∈ l := by
  induction l with
  | nil => simp [sortByDesc]
  | cons y ys ih => simp [sortByDesc, mem_insertByDesc, ih]

theorem Timestamp.lt_asymm {a b : Timestamp} (h : Timestamp.lt a b = true) :
    Timestamp.lt b a = false := by
  revert h
  simp only [Timestamp.lt, Bool.or_eq_true, Bool.and_eq_true, decide_eq_true_eq,
    beq_iff_eq, Bool.or_eq_false_iff, Bool.and_eq_false_iff, decide_eq_false_iff_not,
    beq_eq_false_iff_ne, ne_eq]
  omega

/-- Appending an element that sorts strictly before everything already in
the list simply puts it in front. -/
theorem sortByDesc_snoc_of_latest (later : α → α → Bool) (a : α) (l : List α)
    (h : ∀ x ∈ l, later x a = false) :
    sortByDesc later (l ++ [a]) = a :: sortByDesc later l := by
  induction l with
  | nil => rfl
  | cons x xs ih =>
      have hx : later x a = false := h x (by simp)
      have ih' := ih (fun y hy => h y (by simp [hy]))
      simp only [List.cons_append, sortByDesc, List.append_eq] at ih' ⊢
      rw [ih']
      simp [insertByDesc, hx]

theorem runReadings_append (s : State) (l₁ l₂ : List (EnergyReading × Timestamp)) :
    runReadings s (l₁ ++ l₂) = runReadings (runReadings s l₁) l₂ := by
  induction l₁ generalizing s with
  | nil => rfl
  | cons p rest ih =>
      obtain ⟨r, t⟩ := p
      simp [runReadings, ih]

theorem list_sum_const {l : List ℚ} {c : ℚ} (h : ∀ x ∈ l, x = c) :
    l.sum = l.length * c := by
  induction l with
  | nil => simp
  | cons x xs ih =>
      have hx := h x (by simp)
      have := ih (fun y hy => h y (by simp [hy]))
      simp [hx, this]
      ring

theorem mean_const {l : List ℚ} {c : ℚ} (hne : l ≠ []) (h : ∀ x ∈ l, x = c) :
    mean l = c := by
  have h0 : l.length ≠ 0 := fun hl => hne (List.length_eq_zero.mp hl)
  have hlen : (l.length : ℚ) ≠ 0 := Nat.cast_ne_zero.mpr h0
  simp only [mean, list_sum_const h]
  rw [mul_comm, mul_div_assoc, div_self hlen, mul_one]

theorem sampleVar_of_const {l : List ℚ} {c : ℚ} (h : ∀ x ∈ l, x = c) :
    sampleVar l = 0 := by
  rcases eq_or_ne l [] with rfl | hne
  · simp [sampleVar]
  · have hm := mean_const hne h
    have hz : ∀ y ∈ l.map (fun x => (x - mean l) ^ 2), y = 0 := by
      intro y hy
      obtain ⟨x, hx, rfl⟩ := List.mem_map.mp hy
      simp [h x hx, hm]
    simp [sampleVar, List.sum_eq_zero hz]

theorem anomalyCheck_of_var_zero {hist : List ℚ} (h : sampleVar hist = 0) (w : ℚ) :
    anomalyCheck hist w = false := by
  simp only [anomalyCheck]
  split
  · split <;> simp [h]
  · rfl

theorem anomalyCheck_of_short {hist : List ℚ} (h : hist.length < 10) (w : ℚ) :
    anomalyCheck hist w = false := by
  simp only [anomalyCheck]
  rw [if_neg (by omega)]

/-- Every value in the history window used by the anomaly check is the
watts of some row of the post-insert readings table. -/
theorem mem_postHistory {s : State} {reading : EnergyReading} {now : Timestamp} {w : ℚ}
    (hw : w ∈ postHistory s reading now) :
    ∃ row ∈ s.readings ++ [newRow s reading now], w = row.watts := by
  simp only [postHistory, recentWatts, List.mem_map] at hw
  obtain ⟨row, hrow, rfl⟩ := hw
  have h1 : row ∈ sortByDesc tsLater
      ((s.readings ++ [newRow s reading now]).filter
        (fun r => r.device_id == reading.device_id)) := List.mem_of_mem_take hrow
  have h2 := (mem_sortByDesc _ _ _).mp h1
  exact ⟨row, (List.mem_filter.mp h2).1, rfl⟩

/-- When every stored watt value and the new reading's watts are the same
constant, the anomaly branch is silent and `add_reading` only appends the
reading row. -/
theorem addReading_const_state {s : State} {reading : EnergyReading} {now : Timestamp}
    {c : ℚ} (hs : ∀ row ∈ s.readings, row.watts = c) (hr : reading.watts = c) :
    (addReading s reading now).state =
      ⟨s.devices, s.readings ++ [newRow s reading now], s.alerts⟩ := by
  have hall : ∀ w ∈ postHistory s reading now, w = c := by
    intro w hw
    obtain ⟨row, hrow, rfl⟩ := mem_postHistory hw
    rcases List.mem_append.mp hrow with h | h
    · exact hs row h
    · simp only [List.mem_singleton] at h
      subst h
      simpa [newRow] using hr
  have hvar := sampleVar_of_const hall
  simp [addReading, anomalyAlertsOf, anomalyCheck_of_var_zero hvar]

/-- Running a batch of constant-watts readings from a constant-watts state
appends the stamped rows and generates no alerts. -/
theorem runReadings_const (c : ℚ) (pairs : List (EnergyReading × Timestamp)) :
    ∀ s : State, (∀ p ∈ pairs, (p.1).watts = c) → (∀ row ∈ s.readings, row.watts = c) →
      runReadings s pairs = ⟨s.devices, stampFrom s.readings pairs, s.alerts⟩ := by
  induction pairs with
  | nil => intro s _ _; rfl
  | cons p rest ih =>
      obtain ⟨r, t⟩ := p
      intro s hp hs
      have hr : r.watts = c := hp (r, t) (by simp)
      have hstep : (addReading s r t).state =
          ⟨s.devices, s.readings ++ [newRow s r t], s.alerts⟩ :=
        addReading_const_state hs hr
      have hs' : ∀ row ∈ s.readings ++ [newRow s r t], row.watts = c := by
        intro row hrow
        rcases List.mem_append.mp hrow with h | h
        · exact hs row h
        · simp only [List.mem_singleton] at h
          subst h
          simpa [newRow] using hr
      simp only [runReadings, hstep]
      rw [ih ⟨s.devices, s.readings ++ [newRow s r t], s.alerts⟩
        (fun q hq => hp q (by simp [hq])) hs']
      rfl

/-- The history window of the anomaly check has the length of the filtered
post-insert table, capped at 100. -/
theorem postHistory_length (s : State) (r : EnergyReading) (now : Timestamp) :
    (postHistory s r now).length =
      min 100 ((s.readings.filter (fun row => row.device_id == r.device_id)).length + 1) := by
  simp [postHistory, recentWatts, length_sortByDesc, List.filter_append, newRow]

/-- Every group key comes from some row of the grouped set. -/
theorem mem_keysOf {rows : List ReadingRow} {k : String × String × String}
    (hk : k ∈ keysOf rows) : ∃ row ∈ rows, statsKey row = k := by
  induction rows with
  | nil => simp [keysOf] at hk
  | cons r rest ih =>
      simp only [keysOf] at hk
      split at hk
      · obtain ⟨row, h1, h2⟩ := ih hk
        exact ⟨row, by simp [h1], h2⟩
      · rcases List.mem_cons.mp hk with h | h
        · exact ⟨r, by simp, h.symm⟩
        · obtain ⟨row, h1, h2⟩ := ih h
          exact ⟨row, by simp [h1], h2⟩

/-- On a window of at least 10 entries the anomaly test reduces to the
variance condition. -/
theorem anomalyCheck_eq_decide {hist : List ℚ} (hlen : 10 ≤ hist.length) (w : ℚ) :
    anomalyCheck hist w =
      decide (0 < sampleVar hist ∧ 4 * sampleVar hist < (w - mean hist) ^ 2) := by
  have h1 : 1 < hist.length := by omega
  simp only [anomalyCheck, if_pos hlen, if_pos h1]
  by_cases hA : 0 < sampleVar hist
  · by_cases hB : 4 * sampleVar hist < (w - mean hist) ^ 2 <;> simp [hA, hB]
  · simp [hA]

/-- Nine prior readings of 100 W for device `d9`, followed by a spike. -/
def s9 : State :=
  ⟨[], [⟨1, "d9", "PC", 100, "default", ⟨0, 0⟩⟩, ⟨2, "d9", "PC", 100, "default", ⟨0, 1⟩⟩,
    ⟨3, "d9", "PC", 100, "default", ⟨0, 2⟩⟩, ⟨4, "d9", "PC", 100, "default", ⟨0, 3⟩⟩,
    ⟨5, "d9", "PC", 100, "default", ⟨0, 4⟩⟩, ⟨6, "d9", "PC", 100, "default", ⟨0, 5⟩⟩,
    ⟨7, "d9", "PC", 100, "default", ⟨0, 6⟩⟩, ⟨8, "d9", "PC", 100, "default", ⟨0, 7⟩⟩,
    ⟨9, "d9", "PC", 100, "default", ⟨0, 8⟩⟩], []⟩

/-- A 9999 W reading for device `d9`. -/
def r9 : EnergyReading := ⟨"d9", "PC", 9999, none, "default", none⟩

/-- Nine prior readings of 50 W for device `d3`. -/
def s3 : State :=
  ⟨[], [⟨1, "d3", "TV", 50, "default", ⟨0, 0⟩⟩, ⟨2, "d3", "TV", 50, "default", ⟨0, 1⟩⟩,
    ⟨3, "d3", "TV", 50, "default", ⟨0, 2⟩⟩, ⟨4, "d3", "TV", 50, "default", ⟨0, 3⟩⟩,
    ⟨5, "d3", "TV", 50, "default", ⟨0, 4⟩⟩, ⟨6, "d3", "TV", 50, "default", ⟨0, 5⟩⟩,
    ⟨7, "d3", "TV", 50, "default", ⟨0, 6⟩⟩, ⟨8, "d3", "TV", 50, "default", ⟨0, 7⟩⟩,
    ⟨9, "d3", "TV", 50, "default", ⟨0, 8⟩⟩], []⟩

/-- A 5000 W reading for device `d3`. -/
def r3 : EnergyReading := ⟨"d3", "TV", 5000, none, "default", none⟩

/-- Ten prior readings for device `c4`: five of 0 W, five of 10 W
(prior mean 5, prior sample variance 250/9 greater than 0). -/
def sW : State :=
  ⟨[], [⟨1, "c4", "AC", 0, "default", ⟨0, 0⟩⟩, ⟨2, "c4", "AC", 0, "default", ⟨0, 1⟩⟩,
    ⟨3, "c4", "AC", 0, "default", ⟨0, 2⟩⟩, ⟨4, "c4", "AC", 0, "default", ⟨0, 3⟩⟩,
    ⟨5, "c4", "AC", 0, "default", ⟨0, 4⟩⟩, ⟨6, "c4", "AC", 10, "default", ⟨0, 5⟩⟩,
    ⟨7, "c4", "AC", 10, "default", ⟨0, 6⟩⟩, ⟨8, "c4", "AC", 10, "default", ⟨0, 7⟩⟩,
    ⟨9, "c4", "AC", 10, "default", ⟨0, 8⟩⟩, ⟨10, "c4", "AC", 10, "default", ⟨0, 9⟩⟩], []⟩

/-- A 16 W reading for device `c4`: more than 2 prior standard deviations
from the prior mean, but within 2 standard deviations of the window the
code actually uses (which includes this reading). -/
def rW : EnergyReading := ⟨"c4", "AC", 16, none, "default", none⟩

/-- A 100 W reading for device `c4`: anomalous even for the post-insert
window. -/
def rW2 : EnergyReading := ⟨"c4", "AC", 100, none, "default", none⟩

/-- A small reading destined for an empty store. -/
def rFresh : EnergyReading := ⟨"w1", "Lamp", 5, none, "default", none⟩

/-- A device registered with threshold 50 W, and a 60 W reading for it. -/
def sD : State := ⟨[⟨"t1", "Heater", "default", 50, ⟨0, 0⟩⟩], [], []⟩

/-- A 60 W reading for the threshold-50 device `t1`. -/
def rT : EnergyReading := ⟨"t1", "Heater", 60, none, "default", none⟩

/-- Two devices with one 0.007 W reading each on day 0. -/
def sC5 : State :=
  ⟨[], [⟨1, "dA", "A", 7/1000, "default", ⟨0, 0⟩⟩, ⟨2, "dB", "B", 7/1000, "default", ⟨0, 1⟩⟩], []⟩

/-- One device with a single 100.123 W reading on day 0. -/
def s6 : State := ⟨[], [⟨1, "d6", "X", 100123/1000, "default", ⟨0, 0⟩⟩], []⟩

/-- The scenario of claim C2: fifteen 100 W readings for device `a1`. -/
def readingC2 : EnergyReading := ⟨"a1", "PC", 100, none, "default", none⟩

/-- The 9999 W spike of the C2 scenario. -/
def spikeC2 : EnergyReading := ⟨"a1", "PC", 9999, none, "default", none⟩

/-- The first fifteen recorded readings of the C2 scenario. -/
def pairsC2 : List (EnergyReading × Timestamp) :=
  (List.range 15).map (fun i => (readingC2, ⟨0, i⟩))

/-- The store after recording the full C2 scenario through `add_reading`. -/
def sC2 : State := runReadings initState (pairsC2 ++ [(spikeC2, ⟨0, 15⟩)])

/-- Recording the C2 scenario generates exactly one alert, whose stored
baseline is 718.69 (the mean of all sixteen readings, the spike included)
and whose stored deviation is +1291.29 percent. -/
theorem sC2_alerts_eq :
    sC2.alerts = [⟨1, "a1", "PC", "anomaly", 9999, 71869/100, 129129/100, ⟨0, 15⟩⟩] := by
  have h15 : runReadings initState pairsC2 = ⟨[], stampFrom [] pairsC2, []⟩ := by
    apply runReadings_const 100
    · intro p hp
      simp only [pairsC2, List.mem_map] at hp
      obtain ⟨i, _, rfl⟩ := hp
      rfl
    · intro row hrow
      simp [initState] at hrow
  have hrows : stampFrom ([] : List ReadingRow) pairsC2 =
      [⟨1, "a1", "PC", 100, "default", ⟨0, 0⟩⟩, ⟨2, "a1", "PC", 100, "default", ⟨0, 1⟩⟩,
       ⟨3, "a1", "PC", 100, "default", ⟨0, 2⟩⟩, ⟨4, "a1", "PC", 100, "default", ⟨0, 3⟩⟩,
       ⟨5, "a1", "PC", 100, "default", ⟨0, 4⟩⟩, ⟨6, "a1", "PC", 100, "default", ⟨0, 5⟩⟩,
       ⟨7, "a1", "PC", 100, "default", ⟨0, 6⟩⟩, ⟨8, "a1", "PC", 100, "default", ⟨0, 7⟩⟩,
       ⟨9, "a1", "PC", 100, "default", ⟨0, 8⟩⟩, ⟨10, "a1", "PC", 100, "default", ⟨0, 9⟩⟩,
       ⟨11, "a1", "PC", 100, "default", ⟨0, 10⟩⟩, ⟨12, "a1", "PC", 100, "default", ⟨0, 11⟩⟩,
       ⟨13, "a1", "PC", 100, "default", ⟨0, 12⟩⟩, ⟨14, "a1", "PC", 100, "default", ⟨0, 13⟩⟩,
       ⟨15, "a1", "PC", 100, "default", ⟨0, 14⟩⟩] := by
    simp [pairsC2, List.range_succ, stampFrom, readingC2]
  rw [sC2, runReadings_append, h15, hrows]
  norm_num [runReadings, addReading, anomalyAlertsOf, anomalyRow, anomalyCheck,
    postHistory, recentWatts, newRow, deviationPct, pyRound, spikeC2,
    sortByDesc, insertByDesc, tsLater, Timestamp.lt, mean, sampleVar]

/-- C1, counterexample.  With nine prior 100 W readings for device `d9`
and a new 9999 W reading, the classification computed from the history
excluding the new reading (the spec's prescription, `specClassifyBeforeCommit`)
emits no alert, since only 9 entries are visible; but `add_reading`
inserts the reading before querying the history and persists an anomaly
alert.  So the decision is not made on the history excluding the reading. -/
theorem C1_counterexample :
    specClassifyBeforeCommit s9 r9 = false ∧
    (addReading s9 r9 ⟨0, 9⟩).state.alerts.length = 1 := by
  constructor
  · norm_num [specClassifyBeforeCommit, s9, r9, recentWatts, anomalyCheck,
      sortByDesc, insertByDesc, tsLater, Timestamp.lt]
  · norm_num [addReading, anomalyAlertsOf, anomalyCheck, postHistory, recentWatts, newRow,
      s9, r9, sortByDesc, insertByDesc, tsLater, Timestamp.lt, mean, sampleVar]

/-- C1, amended.  `add_reading` inserts the reading into the store before
reading the history, so the window the anomaly decision uses is taken
over the post-insert table: when the reading's timestamp is the newest,
its own watts value is part of the window, and the persisted alerts are
exactly those derived from that window. -/
theorem C1_history_includes_reading (s : State) (r : EnergyReading) (now : Timestamp)
    (h : ∀ row ∈ s.readings, Timestamp.lt row.timestamp (r.timestamp.getD now) = true) :
    r.watts ∈ postHistory s r now ∧
    (addReading s r now).state.alerts = s.alerts ++ anomalyAlertsOf s r now := by
  refine ⟨?_, rfl⟩
  have hfilter : (s.readings ++ [newRow s r now]).filter
      (fun row => row.device_id == r.device_id) =
      s.readings.filter (fun row => row.device_id == r.device_id) ++ [newRow s r now] := by
    simp [List.filter_append, newRow]
  have hlate : ∀ x ∈ s.readings.filter (fun row => row.device_id == r.device_id),
      tsLater x (newRow s r now) = false := by
    intro x hx
    have hmem := (List.mem_filter.mp hx).1
    simpa [tsLater, newRow] using Timestamp.lt_asymm (h x hmem)
  simp only [postHistory, recentWatts, hfilter]
  rw [sortByDesc_snoc_of_latest tsLater (newRow s r now) _ hlate,
    show (100 : ℕ) = 99 + 1 from rfl, List.take_succ_cons]
  simp [newRow]

/-- C1, witness for the amended theorem at a concrete input: a first
reading on a fresh store is part of its own anomaly window. -/
theorem C1_history_includes_reading_witness :
    rFresh.watts ∈ postHistory initState rFresh ⟨0, 0⟩ ∧
    (addReading initState rFresh ⟨0, 0⟩).state.alerts =
      initState.alerts ++ anomalyAlertsOf initState rFresh ⟨0, 0⟩ :=
  C1_history_includes_reading initState rFresh ⟨0, 0⟩ (by simp [initState])

/-- C2, counterexample.  After fifteen 100 W readings and one 9999 W
reading, exactly one anomaly alert is generated, but its stored baseline
is 718.69 — more than 300 above the claimed "approximately 100" — and its
stored deviation is +1291.29 percent, far below the claimed
"approximately +9799 percent". -/
theorem C2_counterexample :
    sC2.alerts.length = 1 ∧
    sC2.alerts.head?.map (fun a => (a.baseline_watts, a.deviation_pct)) =
      some (71869/100, 129129/100) ∧
    (100 : ℚ) + 300 < 71869/100 ∧ (129129 : ℚ)/100 < 9799 - 5000 := by
  rw [sC2_alerts_eq]
  norm_num

/-- C2, amended.  Recording fifteen 100 W readings for device `a1` and
then one 9999 W reading generates exactly one anomaly alert; since the
spike is part of its own baseline window, the alert's stored baseline is
718.69 (the mean of all sixteen readings) and its stored deviation is
+1291.29 percent. -/
theorem C2_scenario :
    sC2.alerts = [⟨1, "a1", "PC", "anomaly", 9999, 71869/100, 129129/100, ⟨0, 15⟩⟩] :=
  sC2_alerts_eq

/-- C3, counterexample.  Device `d3` has only nine prior readings (of
50 W), fewer than 10; yet recording a 5000 W reading emits an anomaly
alert, because the window the code uses includes the new reading and so
reaches length 10. -/
theorem C3_counterexample :
    (s3.readings.filter (fun row => row.device_id == r3.device_id)).length = 9 ∧
    (addReading s3 r3 ⟨0, 9⟩).state.alerts.length = 1 := by
  constructor
  · norm_num [s3, r3]
  · norm_num [addReading, anomalyAlertsOf, anomalyCheck, postHistory, recentWatts, newRow,
      s3, r3, sortByDesc, insertByDesc, tsLater, Timestamp.lt, mean, sampleVar]

/-- C3, amended.  For a device with fewer than 9 prior readings, recording
a reading never emits an anomaly alert, whatever its watts: the window,
which includes the new reading, then has fewer than 10 entries. -/
theorem C3_no_anomaly_under_nine_priors (s : State) (r : EnergyReading) (now : Timestamp)
    (h : (s.readings.filter (fun row => row.device_id == r.device_id)).length < 9) :
    (addReading s r now).state.alerts = s.alerts := by
  have hlen : (postHistory s r now).length < 10 := by
    have := postHistory_length s r now
    omega
  simp [addReading, anomalyAlertsOf, anomalyCheck_of_short hlen]

/-- C3, witness for the amended theorem: a 9999 W first reading on a fresh
store emits no alert. -/
theorem C3_no_anomaly_under_nine_priors_witness :
    (addReading initState ⟨"d0", "PC", 9999, none, "default", none⟩ ⟨0, 0⟩).state.alerts =
      initState.alerts :=
  C3_no_anomaly_under_nine_priors initState ⟨"d0", "PC", 9999, none, "default", none⟩ ⟨0, 0⟩
    (by norm_num [initState])

/-- C4, counterexample.  Device `c4` has ten prior readings with positive
sample variance, and the 16 W reading `rW` is more than 2 prior standard
deviations from the prior mean (stated on squares: the squared difference
exceeds 4 times the prior sample variance); the claim demands exactly one
anomaly alert, but `add_reading` emits none, because the window it uses
includes the new reading, which drags the mean and inflates the spread. -/
theorem C4_counterexample :
    (recentWatts sW.readings "c4").length = 10 ∧
    0 < sampleVar (recentWatts sW.readings "c4") ∧
    4 * sampleVar (recentWatts sW.readings "c4") <
      (rW.watts - mean (recentWatts sW.readings "c4")) ^ 2 ∧
    (addReading sW rW ⟨0, 10⟩).state.alerts = [] := by
  refine ⟨?_, ?_, ?_, ?_⟩ <;>
    norm_num [addReading, anomalyAlertsOf, anomalyCheck, postHistory, recentWatts, newRow,
      sW, rW, sortByDesc, insertByDesc, tsLater, Timestamp.lt, mean, sampleVar]

/-- C4, amended.  For the window the code actually uses — the post-insert
history, which contains the new reading — the claim holds: with at least
10 entries, a positive sample variance and a squared distance from the
window mean exceeding 4 times the variance (that is, more than 2 standard
deviations) exactly one anomaly alert is appended, and otherwise none. -/
theorem C4_post_insert_window (s : State) (r : EnergyReading) (now : Timestamp)
    (hlen : 10 ≤ (postHistory s r now).length) :
    (0 < sampleVar (postHistory s r now) ∧
        4 * sampleVar (postHistory s r now) < (r.watts - mean (postHistory s r now)) ^ 2 →
      (addReading s r now).state.alerts = s.alerts ++ [anomalyRow s r now]) ∧
    (¬(0 < sampleVar (postHistory s r now) ∧
        4 * sampleVar (postHistory s r now) < (r.watts - mean (postHistory s r now)) ^ 2) →
      (addReading s r now).state.alerts = s.alerts) := by
  constructor
  · intro hc
    have hb := anomalyCheck_eq_decide hlen r.watts
    simp [addReading, anomalyAlertsOf, hb, hc]
  · intro hc
    have hb := anomalyCheck_eq_decide hlen r.watts
    simp [addReading, anomalyAlertsOf, hb, hc]

/-- C4, witness for the amended theorem: on the ten-reading state `sW`, a
100 W reading is anomalous for its own window and appends exactly the one
alert row. -/
theorem C4_post_insert_window_witness :
    (addReading sW rW2 ⟨0, 10⟩).state.alerts = sW.alerts ++ [anomalyRow sW rW2 ⟨0, 10⟩] :=
  (C4_post_insert_window sW rW2 ⟨0, 10⟩
    (by norm_num [postHistory, recentWatts, newRow, sW, rW2, sortByDesc, insertByDesc,
      tsLater, Timestamp.lt])).1
    (by constructor <;>
      norm_num [postHistory, recentWatts, newRow, sW, rW2, sortByDesc, insertByDesc,
        tsLater, Timestamp.lt, mean, sampleVar])

/-- C5, counterexample.  Two devices each draw 0.007 W on day 0, so each
unrounded daily kWh is 0.000168, rounded per device to 0.0002.  The
report's summary total is computed from those already-rounded values and
comes out as 0.0004, while a total computed from the unrounded
intermediate values and rounded once at the boundary (the spec's words,
`specTotalDailyKwh`) is 0.0003: rounding does compound across the
aggregation steps. -/
theorem C5_counterexample :
    (exportReport sC5 0).total_daily_kwh = 4/10000 ∧
    specTotalDailyKwh sC5 0 = 3/10000 ∧
    (exportReport sC5 0).total_daily_kwh ≠ specTotalDailyKwh sC5 0 := by
  have hrows : sC5.readings.filter (onDate 0 none) = sC5.readings := by
    norm_num [onDate, sC5]
  have hkeys : keysOf sC5.readings = [("dA", "A", "default"), ("dB", "B", "default")] := by
    norm_num [keysOf, statsKey, sC5, Prod.mk.injEq,
      (by decide : ("dA" : String) ≠ "dB"), (by decide : ("dB" : String) ≠ "dA")]
  have hgA : (groupRow sC5.readings ("dA", "A", "default")).daily_kwh = 2/10000 := by
    norm_num [groupRow, statsKey, mean, pyRound, sC5, beq_iff_eq, Prod.mk.injEq,
      (by decide : ("dA" : String) ≠ "dB"), (by decide : ("dB" : String) ≠ "dA")]
  have hgB : (groupRow sC5.readings ("dB", "B", "default")).daily_kwh = 2/10000 := by
    norm_num [groupRow, statsKey, mean, pyRound, sC5, beq_iff_eq, Prod.mk.injEq,
      (by decide : ("dA" : String) ≠ "dB"), (by decide : ("dB" : String) ≠ "dA")]
  have hstats : getDailyUsage sC5 none 0 =
      [groupRow sC5.readings ("dA", "A", "default"), groupRow sC5.readings ("dB", "B", "default")] := by
    simp only [getDailyUsage, hrows, hkeys, List.map_cons, List.map_nil]
  have hcode : (exportReport sC5 0).total_daily_kwh = 4/10000 := by
    simp only [exportReport, hstats, List.map_cons, List.map_nil, List.sum_cons,
      List.sum_nil, hgA, hgB]
    norm_num [pyRound]
  have hspec : specTotalDailyKwh sC5 0 = 3/10000 := by
    simp only [specTotalDailyKwh, hrows, hkeys, List.map_cons, List.map_nil]
    norm_num [statsKey, mean, pyRound, sC5, beq_iff_eq, Prod.mk.injEq,
      (by decide : ("dA" : String) ≠ "dB"), (by decide : ("dB" : String) ≠ "dA")]
  refine ⟨hcode, hspec, ?_⟩
  rw [hcode, hspec]
  norm_num

/-- C5, amended.  Per-device fields are each rounded once from unrounded
intermediates, but the report's summary totals are computed by summing the
already-rounded per-device `daily_kwh` and `daily_cost_usd` fields and
rounding the sums again, so rounding error can compound between the
per-device and summary aggregation steps. -/
theorem C5_summary_sums_rounded (s : State) (today : Nat) :
    (exportReport s today).total_daily_kwh =
      pyRound 4 (((getDailyUsage s none today).map (fun st => st.daily_kwh)).sum) ∧
    (exportReport s today).total_daily_cost_usd =
      pyRound 4 (((getDailyUsage s none today).map (fun st => st.daily_cost_usd)).sum) :=
  ⟨rfl, rfl⟩

/-- C6, counterexample.  A single reading of 100.123 W on day 0 yields a
stats row with `avg_watts = 100.12` (rounded to 2 places) and
`daily_kwh = 2.403` (the 4-place rounding of 100.123 × 24 / 1000 =
2.402952), but `avg_watts × 24 / 1000 = 2.40288 ≠ 2.403` and
`daily_kwh × cost_per_kwh = 0.28836 ≠ 0.2884 = daily_cost_usd`: the
claimed identities fail on the rounded row fields. -/
theorem C6_counterexample :
    ((getDailyUsage s6 none 0).map (fun st => (st.avg_watts, st.daily_kwh, st.daily_cost_usd)))
      = [(2503/25, 2403/1000, 721/2500)] ∧
    (2403 : ℚ)/1000 ≠ (2503/25) * 24 / 1000 ∧
    (721 : ℚ)/2500 ≠ (2403/1000) * COST_PER_KWH := by
  refine ⟨?_, ?_, ?_⟩ <;>
    norm_num [getDailyUsage, keysOf, statsKey, onDate, groupRow, mean, maxWatts, minWatts,
      maxTs, pyRound, COST_PER_KWH, s6]

/-- C6, amended.  Each `DeviceStats` row's `daily_kwh` is the 4-place
rounding of `raw_avg × 24 / 1000` and its `daily_cost_usd` the 4-place
rounding of `raw_avg × 24 / 1000 × cost_per_kwh`, where `raw_avg` is the
unrounded group mean (of which `avg_watts` is the 2-place rounding): the
exact identities hold between the unrounded intermediates, not between
the rounded row fields. -/
theorem C6_row_fields (rows : List ReadingRow) (k : String × String × String) :
    (groupRow rows k).avg_watts =
      pyRound 2 (mean ((rows.filter (fun r => statsKey r == k)).map (fun r => r.watts))) ∧
    (groupRow rows k).daily_kwh =
      pyRound 4 (mean ((rows.filter (fun r => statsKey r == k)).map (fun r => r.watts))
        * 24 / 1000) ∧
    (groupRow rows k).daily_cost_usd =
      pyRound 4 (mean ((rows.filter (fun r => statsKey r == k)).map (fun r => r.watts))
        * 24 / 1000 * COST_PER_KWH) :=
  ⟨rfl, rfl, rfl⟩

/-- C7, confirmed.  When the device is registered with a positive
threshold and the reading exceeds it, the threshold branch emits only the
transient warning: the alerts table receives exactly the rows the anomaly
branch produces, and nothing from the threshold branch. -/
theorem C7_threshold_transient (s : State) (r : EnergyReading) (now : Timestamp)
    (d : DeviceRow)
    (hfind : s.devices.find? (fun dr => dr.device_id == r.device_id) = some d)
    (hpos : 0 < d.threshold_watts) (hexc : d.threshold_watts < r.watts) :
    (addReading s r now).thresholdWarned = true ∧
    (addReading s r now).state.alerts = s.alerts ++ anomalyAlertsOf s r now := by
  constructor
  · simp [addReading, hfind, hpos, hexc]
  · rfl

/-- C7, witness: device `t1` is registered with threshold 50 W; a 60 W
reading warns but leaves the alerts table untouched (the anomaly branch
contributes nothing on a first reading). -/
theorem C7_threshold_transient_witness :
    (addReading sD rT ⟨0, 1⟩).thresholdWarned = true ∧
    (addReading sD rT ⟨0, 1⟩).state.alerts = sD.alerts ++ anomalyAlertsOf sD rT ⟨0, 1⟩ :=
  C7_threshold_transient sD rT ⟨0, 1⟩ ⟨"t1", "Heater", "default", 50, ⟨0, 0⟩⟩
    (by simp [sD, rT, List.find?]) (by norm_num) (by norm_num [rT])

/-- C8, confirmed.  The deviation percentage is 0 whenever the baseline is
not positive; the division is guarded and can never be reached with a
zero (or negative) baseline. -/
theorem C8_deviation_zero_guard (w baseline : ℚ) (h : baseline ≤ 0) :
    deviationPct w baseline = 0 := by
  simp only [deviationPct]
  rw [if_neg (not_lt.mpr h)]

/-- C8, witness at baseline 0: the guard takes the zero branch. -/
theorem C8_deviation_zero_guard_witness :
    (0 : ℚ) ≤ 0 ∧ deviationPct 250 0 = 0 :=
  ⟨le_rfl, C8_deviation_zero_guard 250 0 le_rfl⟩

/-- C9, confirmed.  Aggregating a day on which a device has no readings
produces no row for that device (every produced row belongs to a device
that does have a reading that day), and querying alerts on a fresh store
returns the empty list rather than failing. -/
theorem C9_empty_inputs (s : State) (day : Nat) (dev : String) (lim : Nat)
    (h : ∀ row ∈ s.readings, row.device_id = dev → row.timestamp.date ≠ day) :
    (∀ st ∈ getDailyUsage s none day, st.device_id ≠ dev) ∧
    getAnomalies initState lim = [] := by
  constructor
  · intro st hst
    simp only [getDailyUsage, List.mem_map] at hst
    obtain ⟨k, hk, rfl⟩ := hst
    obtain ⟨row, hrow, rfl⟩ := mem_keysOf hk
    have hm := List.mem_filter.mp hrow
    have hdate : row.timestamp.date = day := by
      have hd := hm.2
      simp only [onDate, Bool.and_eq_true, beq_iff_eq] at hd
      exact hd.1
    intro hcontra
    exact h row hm.1 (by simpa [groupRow, statsKey] using hcontra) hdate
  · simp [getAnomalies, sortByDesc, initState]

/-- C9, witness on the empty store: no stats row and no alerts. -/
theorem C9_empty_inputs_witness :
    (∀ st ∈ getDailyUsage initState none 0, st.device_id ≠ "d1") ∧
    getAnomalies initState 20 = [] :=
  C9_empty_inputs initState 0 "d1" 20 (by simp [initState])

/-- C10, confirmed.  Every `add_reading` call appends exactly one row to
the readings table (whatever the alert branches do), appends at most one
row to the alerts table, leaves the device registry unchanged, and
returns its argument reading with the freshly assigned row id and with
the caller's timestamp when one was supplied (`Option.getD` keeps a
supplied timestamp and falls back to the clock otherwise), both fields
non-null. -/
theorem C10_add_reading_shape (s : State) (r : EnergyReading) (now : Timestamp) :
    (addReading s r now).state.readings = s.readings ++ [newRow s r now] ∧
    (addReading s r now).state.alerts.length ≤ s.alerts.length + 1 ∧
    (addReading s r now).state.devices = s.devices ∧
    (addReading s r now).returned =
      { r with id := some (s.readings.length + 1),
               timestamp := some (r.timestamp.getD now) } := by
  refine ⟨rfl, ?_, rfl, rfl⟩
  simp only [addReading, anomalyAlertsOf]
  split <;> simp

end EnergyMonitor
